import Mathlib

/-!
Verification of the Court-Reserver-Bot core logic: a shallow embedding of the
conflict evaluator (`src/services/waitlistScheduler/index.js`), the reservation
fighter's burst loop and session map (`src/services/reservationFighter/index.js`)
and the fighter's campaign store / config loader
(`src/services/reservationFighter/configLoader.js`), with theorems about the
properties the natural-language specification states.

JavaScript `Date` values are modelled as `Option Int` — `some t` is a valid
date holding `t` milliseconds since the epoch, `none` is an Invalid Date
(its time value is NaN).  Every relational comparison against NaN is false in
JavaScript, which `jsLt`/`jsGe` below reproduce.
-/

namespace CourtReserve

/-- JS `<` on two `Date` values: compares the millisecond time values and is
false whenever either side is an Invalid Date (NaN). -/
def jsLt : Option Int → Option Int → Bool
  | some a, some b => a < b
  | _, _ => false

/-- JS `>=` on two `Date` values: false whenever either side is an Invalid
Date (NaN). -/
def jsGe : Option Int → Option Int → Bool
  | some a, some b => b ≤ a
  | _, _ => false

/-- One element of the `Data` array returned by the scheduler API, as consumed
by `_getCourtReservations`: the reservation id (`0` marks an empty slot),
the court id, and the parse results of the `Start` and `End` timestamp strings
(`none` when the string is unparseable, i.e. `new Date(s)` is invalid). -/
structure SchedItem where
  reservationId : Int
  courtId : Nat
  start : Option Int
  stop : Option Int
  deriving Repr, DecidableEq

/-- `_getCourtReservations(schedulerData, courtId)` from
`waitlistScheduler/index.js` lines 239-255: `none` models a missing/falsy
`schedulerData.Data`; otherwise filter `ReservationId > 0` and matching
`CourtId`, and keep each record's `Start`/`End` pair. -/
def getCourtReservations (schedulerData : Option (List SchedItem)) (courtId : Nat) :
    List (Option Int × Option Int) :=
  match schedulerData with
  | none => []
  | some data =>
      (data.filter fun item =>
        decide (0 < item.reservationId) && decide (item.courtId = courtId)).map
        fun item => (item.start, item.stop)

/-- `_hasTimeConflict(schedulerData, courtId, desiredStart, desiredEnd)` from
`waitlistScheduler/index.js` lines 216-231: true iff some record of the court
satisfies `desiredStart < resEnd && desiredEnd > resStart` under JS `Date`
comparison. -/
def hasTimeConflict (schedulerData : Option (List SchedItem)) (courtId : Nat)
    (desiredStart desiredEnd : Option Int) : Bool :=
  (getCourtReservations schedulerData courtId).any fun r =>
    jsLt desiredStart r.2 && jsLt r.1 desiredEnd

/-- `findAvailableCourts` from `waitlistScheduler/index.js` lines 167-193:
walk court ids from `courtIdStart` to `courtIdEnd` inclusive, keeping those
without a time conflict, in ascending order. -/
def findAvailableCourts (schedulerData : Option (List SchedItem))
    (courtIdStart courtIdEnd : Nat) (desiredStart desiredEnd : Option Int) :
    List Nat :=
  (List.range' courtIdStart (courtIdEnd + 1 - courtIdStart)).filter fun courtId =>
    ! hasTimeConflict schedulerData courtId desiredStart desiredEnd

/-- Bool extensionality via the two `= true` propositions. -/
theorem boolEqOfIff {a b : Bool} (h : a = true ↔ b = true) : a = b := by
  cases a <;> cases b <;> simp_all

/-- Membership characterization of `hasTimeConflict`: a conflict arises exactly
from a record of the court with a positive reservation id whose parsed
timestamps pass the JS overlap comparisons. -/
theorem hasTimeConflict_eq_true_iff (l : List SchedItem) (courtId : Nat)
    (desiredStart desiredEnd : Option Int) :
    hasTimeConflict (some l) courtId desiredStart desiredEnd = true ↔
      ∃ item ∈ l, 0 < item.reservationId ∧ item.courtId = courtId ∧
        (jsLt desiredStart item.stop && jsLt item.start desiredEnd) = true := by
  simp only [hasTimeConflict, getCourtReservations, List.any_eq_true,
    List.mem_map, List.mem_filter, Bool.and_eq_true, decide_eq_true_eq]
  constructor
  · rintro ⟨r, ⟨item, ⟨hmem, hid, hcid⟩, rfl⟩, hconf⟩
    exact ⟨item, hmem, hid, hcid, hconf⟩
  · rintro ⟨item, hmem, hid, hcid, hconf⟩
    exact ⟨(item.start, item.stop), ⟨item, ⟨hmem, hid, hcid⟩, rfl⟩, hconf⟩

/-- C2: on parseable timestamps the conflict check is exactly the half-open
overlap rule `a0 < b1 ∧ a1 > b0`; a boundary touch (`a1 = b0` or `b1 = a0`)
is not a conflict. -/
theorem conflict_is_halfopen_overlap :
    ∀ (cid : Nat) (a0 a1 b0 b1 : Int),
      (hasTimeConflict (some [⟨1, cid, some b0, some b1⟩]) cid (some a0) (some a1)
          = true ↔ (a0 < b1 ∧ a1 > b0))
      ∧ hasTimeConflict (some [⟨1, cid, some b0, some b1⟩]) cid (some a0) (some b0)
          = false
      ∧ hasTimeConflict (some [⟨1, cid, some b0, some a0⟩]) cid (some a0) (some a1)
          = false := by
  intro cid a0 a1 b0 b1
  refine ⟨?_, ?_, ?_⟩
  · rw [hasTimeConflict_eq_true_iff]
    simp [jsLt, Bool.and_eq_true, decide_eq_true_eq, gt_iff_lt, and_comm]
  · rw [← Bool.not_eq_true, hasTimeConflict_eq_true_iff]
    simp [jsLt]
  · rw [← Bool.not_eq_true, hasTimeConflict_eq_true_iff]
    simp [jsLt]

/-- A record can only pass the overlap comparisons when both of its timestamps
parsed (JS comparisons against an Invalid Date are false). -/
theorem overlap_forces_parseable {r : Option Int × Option Int} {ds de : Option Int}
    (h : (jsLt ds r.2 && jsLt r.1 de) = true) : r.1.isSome ∧ r.2.isSome := by
  rcases r with ⟨s, e⟩
  cases s <;> cases e <;> simp_all [jsLt]

/-- C1 counterexample: a record with an unparseable start timestamp is not
treated as a conflict — court 1 is reported free on the basis of that record
alone, contradicting the fail-safe claim. -/
theorem malformed_record_not_conflict_cex :
    hasTimeConflict (some [⟨1, 1, none, some 100⟩]) 1 (some 0) (some 200) = false
    ∧ findAvailableCourts (some [⟨1, 1, none, some 100⟩]) 1 1 (some 0) (some 200)
        = [1] := ⟨rfl, rfl⟩

/-- C1 (amended): records whose start or end timestamp is malformed are
silently ignored by the conflict check — dropping them never changes the
result, so a resource whose only records are unparseable is reported free. -/
theorem malformed_records_ignored :
    ∀ (sd : Option (List SchedItem)) (cid : Nat) (ds de : Option Int),
      hasTimeConflict sd cid ds de =
        hasTimeConflict
          (sd.map fun l => l.filter fun r => r.start.isSome && r.stop.isSome)
          cid ds de := by
  intro sd cid ds de
  cases sd with
  | none => rfl
  | some l =>
      apply boolEqOfIff
      rw [Option.map_some', hasTimeConflict_eq_true_iff, hasTimeConflict_eq_true_iff]
      constructor
      · rintro ⟨item, hmem, hid, hcid, hconf⟩
        have hsome := overlap_forces_parseable (r := (item.start, item.stop)) hconf
        refine ⟨item, ?_, hid, hcid, hconf⟩
        rw [List.mem_filter]
        exact ⟨hmem, by simp [hsome.1, hsome.2]⟩
      · rintro ⟨item, hmem, hid, hcid, hconf⟩
        exact ⟨item, (List.mem_filter.mp hmem).1, hid, hcid, hconf⟩

/-- C6: sentinel records (`reservationId ≤ 0`) never count as conflicts —
dropping them never changes the conflict check; a court whose only records are
sentinels is reported free; and in the spec's scenario (one real booking
2025-12-01T18:00Z-19:00Z on court 1, range {1,2}, desired 18:00Z for 60 min)
`findAvailableCourts` returns exactly `[2]`. -/
theorem sentinel_records_never_conflict :
    (∀ (l : List SchedItem) (cid : Nat) (ds de : Option Int),
        hasTimeConflict (some l) cid ds de =
          hasTimeConflict (some (l.filter fun r => decide (0 < r.reservationId)))
            cid ds de)
    ∧ findAvailableCourts
        (some [⟨0, 1, some 1764612000000, some 1764615600000⟩,
               ⟨-1, 2, some 1764612000000, some 1764615600000⟩])
        1 2 (some 1764612000000) (some 1764615600000) = [1, 2]
    ∧ findAvailableCourts
        (some [⟨5, 1, some 1764612000000, some 1764615600000⟩])
        1 2 (some 1764612000000) (some 1764615600000) = [2] := by
  refine ⟨?_, by decide, by decide⟩
  intro l cid ds de
  apply boolEqOfIff
  rw [hasTimeConflict_eq_true_iff, hasTimeConflict_eq_true_iff]
  constructor
  · rintro ⟨item, hmem, hid, hcid, hconf⟩
    refine ⟨item, ?_, hid, hcid, hconf⟩
    rw [List.mem_filter]
    exact ⟨hmem, by simpa using hid⟩
  · rintro ⟨item, hmem, hid, hcid, hconf⟩
    exact ⟨item, (List.mem_filter.mp hmem).1, hid, hcid, hconf⟩

/-! ## Campaign store: the reservation fighter's config loader

Embedded from `src/services/reservationFighter/configLoader.js`.  The loader
holds the in-memory `this.config` and the durable file copy; `save` either
writes both or throws leaving the file untouched.  JS mutates `this.config`
in place *before* calling `save`, which the embedding reproduces by applying
the mutation to the in-memory copy regardless of the save outcome. -/

/-- A fighter target as stored in `fighterTargets`: the generated id, the
parse result of its `date` string, and the court it fights for. -/
structure FighterTarget where
  id : String
  date : Option Int
  court : String
  deriving Repr, DecidableEq

/-- The fighter configuration file's shape (strategy fields that no claim
touches are omitted): master switch and target list. -/
structure FighterConfig where
  enabled : Bool
  fighterTargets : List FighterTarget
  deriving Repr, DecidableEq

/-- The config loader's observable state: `config` is `this.config` in
memory, `disk` is what a subsequent `load()` from the file would return. -/
structure LoaderState where
  config : FighterConfig
  disk : FighterConfig
  deriving Repr, DecidableEq

/-- Error token for a failed `fs.writeFile` inside `save` (the thrown error's
content is irrelevant to the claims). -/
structure SaveError where
  deriving Repr, DecidableEq

/-- `save(configData)` lines 59-77: on success the file and `this.config` both
become `configData`; on failure the exception propagates and the file is
unchanged.  `saveOk` is the environment's verdict on the write. -/
def save (st : LoaderState) (configData : FighterConfig) (saveOk : Bool) :
    LoaderState × Bool :=
  if saveOk then ({ config := configData, disk := configData }, true)
  else (st, false)

/-- The inputs of `addTarget` (fields other than `court`/`date` play no role
in the claims). -/
structure TargetInput where
  court : String
  date : Option Int
  deriving Repr, DecidableEq

/-- The id `addTarget` generates at line 113: `fighter-${Date.now()}`. -/
def genTargetId (now : Int) : String := "fighter-" ++ toString now

/-- `addTarget(target)` lines 107-121: generate the id, push onto
`this.config.fighterTargets` (an in-place mutation), then save.  A save
failure propagates as an exception, but the push is not rolled back. -/
def addTarget (st : LoaderState) (now : Int) (input : TargetInput)
    (saveOk : Bool) : LoaderState × Except SaveError FighterTarget :=
  let newTarget : FighterTarget := ⟨genTargetId now, input.date, input.court⟩
  let cfg := { st.config with
    fighterTargets := st.config.fighterTargets ++ [newTarget] }
  let (st', ok) := save { st with config := cfg } cfg saveOk
  if ok then (st', .ok newTarget) else (st', .error ⟨⟩)

/-- `removeTarget(targetId)` lines 128-146: reassign the filtered list onto
`this.config`, save only when something was dropped; a save failure
propagates, the filtered list stays in memory. -/
def removeTarget (st : LoaderState) (targetId : String) (saveOk : Bool) :
    LoaderState × Except SaveError Bool :=
  let kept := st.config.fighterTargets.filter fun t => t.id ≠ targetId
  let cfg := { st.config with fighterTargets := kept }
  let stMut := { st with config := cfg }
  if kept.length < st.config.fighterTargets.length then
    let (st', ok) := save stMut cfg saveOk
    if ok then (st', .ok true) else (st', .error ⟨⟩)
  else (stMut, .ok false)

/-- `setEnabled(enabled)` lines 92-100: flip the in-memory flag, then save. -/
def setEnabled (st : LoaderState) (enabled : Bool) (saveOk : Bool) :
    LoaderState × Except SaveError Unit :=
  let cfg := { st.config with enabled := enabled }
  let (st', ok) := save { st with config := cfg } cfg saveOk
  if ok then (st', .ok ()) else (st', .error ⟨⟩)

/-- 28 days in milliseconds: `cutoffDate.setDate(cutoffDate.getDate() + 28)`
advances the clock by 28 calendar days, i.e. this many ms (a DST boundary can
shift it by an hour, immaterial to the claims). -/
def days28Ms : Int := 28 * 86400000

/-- `cleanupOldTargets()` lines 179-203: keep only targets whose parsed date
is `>=` now + 28 days (JS `>=` is false on an Invalid Date), reassigning the
list in memory before the conditional save; returns the number removed. -/
def cleanupOldTargets (st : LoaderState) (now : Int) (saveOk : Bool) :
    LoaderState × Except SaveError Nat :=
  let cutoff := now + days28Ms
  let kept := st.config.fighterTargets.filter fun t => jsGe t.date (some cutoff)
  let removed := st.config.fighterTargets.length - kept.length
  let cfg := { st.config with fighterTargets := kept }
  let stMut := { st with config := cfg }
  if 0 < removed then
    let (st', ok) := save stMut cfg saveOk
    if ok then (st', .ok removed) else (st', .error ⟨⟩)
  else (stMut, .ok removed)

/-- Filtering by the negation of `p` keeps exactly the elements `filter p`
drops. -/
theorem length_filter_not {α : Type} (p : α → Bool) (l : List α) :
    (l.filter fun a => ! p a).length = l.length - (l.filter p).length := by
  induction l with
  | nil => rfl
  | cons hd tl ih =>
      have hle := List.length_filter_le p tl
      cases h : p hd
      · simp [List.filter_cons, h]
        omega
      · simp [List.filter_cons, h]
        omega

/-- C4 counterexample: with `now = 0` and two targets dated 29 days and 1 day
ahead, `cleanupOldTargets` keeps the far target and removes the near one —
the opposite of "removes exactly the targets farther than the lead window". -/
theorem cleanupOldTargets_keeps_far_cex :
    (cleanupOldTargets
        ⟨⟨true, [⟨"a", some 2505600000, "c"⟩, ⟨"b", some 86400000, "c"⟩]⟩,
         ⟨true, [⟨"a", some 2505600000, "c"⟩, ⟨"b", some 86400000, "c"⟩]⟩⟩
        0 true).1.config.fighterTargets = [⟨"a", some 2505600000, "c"⟩]
    ∧ (cleanupOldTargets
        ⟨⟨true, [⟨"a", some 2505600000, "c"⟩, ⟨"b", some 86400000, "c"⟩]⟩,
         ⟨true, [⟨"a", some 2505600000, "c"⟩, ⟨"b", some 86400000, "c"⟩]⟩⟩
        0 true).2 = .ok 1 := ⟨rfl, rfl⟩

/-- C4 (amended): `cleanupOldTargets` uses a fixed 28-day window and removes
exactly the targets whose date is *nearer* than 28 days from now (or
unparseable), keeps every target at least 28 days out, and returns the count
removed. -/
theorem cleanupOldTargets_removes_near :
    ∀ (st : LoaderState) (now : Int),
      (cleanupOldTargets st now true).1.config.fighterTargets
          = st.config.fighterTargets.filter
              (fun t => jsGe t.date (some (now + days28Ms)))
      ∧ (cleanupOldTargets st now true).2
          = .ok (st.config.fighterTargets.filter
              fun t => ! jsGe t.date (some (now + days28Ms))).length := by
  intro st now
  rw [length_filter_not]
  refine ⟨?_, ?_⟩ <;>
    (unfold cleanupOldTargets; dsimp only; split <;> simp [save])

/-- C5 counterexample: `addTarget` with a failing save reports failure, but
the in-memory target list retains the pushed target while the durable store
does not — the mutation is not rolled back. -/
theorem addTarget_save_failure_cex :
    (addTarget ⟨⟨false, []⟩, ⟨false, []⟩⟩ 5 ⟨"52667", some 100⟩ false).1.config.fighterTargets
        = [⟨"fighter-5", some 100, "52667"⟩]
    ∧ (addTarget ⟨⟨false, []⟩, ⟨false, []⟩⟩ 5 ⟨"52667", some 100⟩ false).1.disk.fighterTargets
        = []
    ∧ (addTarget ⟨⟨false, []⟩, ⟨false, []⟩⟩ 5 ⟨"52667", some 100⟩ false).2
        = .error ⟨⟩ := ⟨rfl, rfl, rfl⟩

/-- C5 (amended): when persistence fails, every mutating store operation
reports failure (or, for a no-op remove, performs no save) and leaves the
durable state unchanged, but the in-memory mutation is *retained*, not rolled
back, so memory can diverge from what a load from disk would return. -/
theorem persistence_failure_keeps_memory_mutation :
    (∀ (st : LoaderState) (now : Int) (input : TargetInput),
        (addTarget st now input false).1.config.fighterTargets
            = st.config.fighterTargets
                ++ [⟨genTargetId now, input.date, input.court⟩]
        ∧ (addTarget st now input false).1.disk = st.disk
        ∧ (addTarget st now input false).2 = .error ⟨⟩)
    ∧ (∀ (st : LoaderState) (targetId : String),
        (removeTarget st targetId false).1.config.fighterTargets
            = st.config.fighterTargets.filter (fun t => t.id ≠ targetId)
        ∧ (removeTarget st targetId false).1.disk = st.disk
        ∧ (removeTarget st targetId false).2
            = if (st.config.fighterTargets.filter
                    fun t => t.id ≠ targetId).length
                  < st.config.fighterTargets.length
              then .error ⟨⟩ else .ok false)
    ∧ (∀ (st : LoaderState) (b : Bool),
        (setEnabled st b false).1.config.enabled = b
        ∧ (setEnabled st b false).1.disk = st.disk
        ∧ (setEnabled st b false).2 = .error ⟨⟩)
    ∧ (∀ (st : LoaderState) (now : Int),
        (cleanupOldTargets st now false).1.config.fighterTargets
            = st.config.fighterTargets.filter
                (fun t => jsGe t.date (some (now + days28Ms)))
        ∧ (cleanupOldTargets st now false).1.disk = st.disk
        ∧ (cleanupOldTargets st now false).2
            = if 0 < st.config.fighterTargets.length
                  - (st.config.fighterTargets.filter
                      fun t => jsGe t.date (some (now + days28Ms))).length
              then .error ⟨⟩ else .ok 0) := by
  refine ⟨fun st now input => ?_, fun st targetId => ?_, fun st b => ?_,
    fun st now => ?_⟩
  · exact ⟨rfl, rfl, rfl⟩
  · unfold removeTarget
    dsimp only
    split
    · rename_i hcond
      simp [save, hcond]
    · rename_i hcond
      simp [save, hcond]
  · exact ⟨rfl, rfl, rfl⟩
  · unfold cleanupOldTargets
    dsimp only
    split
    · rename_i hcond
      simp [save, hcond]
    · rename_i hcond
      simp [save, hcond]
      omega

/-- C9: two `addTarget` calls whose `Date.now()` falls in the same millisecond
store two targets with the *same* id `fighter-7`, violating id uniqueness. -/
theorem same_millisecond_ids_collide :
    ((addTarget
        (addTarget ⟨⟨true, []⟩, ⟨true, []⟩⟩ 7 ⟨"52667", some 100⟩ true).1
        7 ⟨"52668", some 200⟩ true).1.config.fighterTargets.map FighterTarget.id)
        = ["fighter-7", "fighter-7"]
    ∧ ¬ ((addTarget
        (addTarget ⟨⟨true, []⟩, ⟨true, []⟩⟩ 7 ⟨"52667", some 100⟩ true).1
        7 ⟨"52668", some 200⟩ true).1.config.fighterTargets.map
          FighterTarget.id).Nodup := by
  constructor
  · rfl
  · decide

/-! ## The reservation fighter's burst executor

Embedded from `src/services/reservationFighter/index.js`.  The request loop
(lines 106-160) is modelled on a virtual millisecond clock: time starts at 0
(`endTime = durationSeconds * 1000`), every gateway attempt consumes
`attemptMs` milliseconds, and the inter-attempt `setTimeout` advances the
clock by `requestIntervalMs`.  `enabled` is read as a function of the clock so
that an external `disable()` racing the loop is expressible; `gw n` tells
whether the n-th booking attempt succeeds.  `fuel` bounds the recursion and is
chosen larger than the greatest possible iteration count (any run with
`attemptMs ≥ 1` makes at most `endT` iterations). -/

/-- What one `runBurst` invocation's loop did: number of booking attempts,
`burstSession.success`, and whether `configLoader.removeTarget` ran (only the
success path removes the target, lines 141-144). -/
structure BurstRun where
  attempts : Nat
  success : Bool
  removedTarget : Bool
  deriving Repr, DecidableEq

/-- The `while (Date.now() < endTime && this.enabled)` loop of `runBurst`:
attempt, break on success, otherwise sleep `requestIntervalMs` only when
`Date.now() + requestIntervalMs < endTime`, and loop. -/
def burstLoop (endT intervalMs attemptMs : Nat) (enabled : Nat → Bool)
    (gw : Nat → Bool) : Nat → Nat → Nat → BurstRun
  | 0, _, attempts => ⟨attempts, false, false⟩
  | fuel + 1, t, attempts =>
      if t < endT && enabled t then
        let attempts := attempts + 1
        let t := t + attemptMs
        if gw attempts then ⟨attempts, true, true⟩
        else
          let t := if t + intervalMs < endT then t + intervalMs else t
          burstLoop endT intervalMs attemptMs enabled gw fuel t attempts
      else ⟨attempts, false, false⟩

/-- One `runBurst` loop execution with the fighter enabled throughout, from a
fresh session (`attempts = 0`, clock 0), with fuel ample for any
`attemptMs ≥ 1`. -/
def runBurstSim (durationSeconds requestIntervalMs attemptMs : Nat)
    (gw : Nat → Bool) : BurstRun :=
  burstLoop (durationSeconds * 1000) requestIntervalMs attemptMs
    (fun _ => true) gw (durationSeconds * 1000 + 1) 0 0

/-- C3 counterexample: in the spec's scenario (`durationSeconds = 20`,
`requestIntervalMs = 5000`, every attempt throws) with a 100 ms attempt
latency, the loop makes 50 attempts, not 4: after the attempt near 15 s the
delay is skipped but the `while` re-enters, retrying without pause until the
20 s mark. -/
theorem burst_not_exactly_four_attempts_cex :
    (runBurstSim 20 5000 100 fun _ => false).attempts = 50
    ∧ ¬ (runBurstSim 20 5000 100 fun _ => false).attempts = 4 := by
  refine ⟨by decide, by decide⟩

/-- C3 (amended): in the spec's scenario the burst makes the four delayed
attempts and then, because the delay is only inserted when a full interval
fits before the end time, keeps retrying back-to-back through the final
interval (50 attempts at 100 ms latency); the session closes unsuccessfully
and the target is not removed from the store. -/
theorem burst_scenario_outcome :
    runBurstSim 20 5000 100 (fun _ => false) = ⟨50, false, false⟩
    ∧ 4 ≤ (runBurstSim 20 5000 100 fun _ => false).attempts := by
  refine ⟨by decide, by decide⟩

/-- C10: the loop re-checks the enabled flag at every iteration: whenever the
flag reads false at the loop head, no further booking attempt is made and the
session closes without success (and without removing the target). -/
theorem disabled_flag_halts_burst :
    ∀ (endT intervalMs attemptMs fuel t attempts : Nat) (enabled : Nat → Bool)
      (gw : Nat → Bool), enabled t = false →
      burstLoop endT intervalMs attemptMs enabled gw fuel t attempts
        = ⟨attempts, false, false⟩ := by
  intro endT intervalMs attemptMs fuel t attempts enabled gw h
  cases fuel with
  | zero => rfl
  | succ n => simp [burstLoop, h]

/-- C10 witness: a concrete disabled run makes zero attempts. -/
theorem disabled_flag_halts_burst_witness :
    burstLoop 20000 5000 100 (fun _ => false) (fun _ => true) 21 0 0
      = ⟨0, false, false⟩ :=
  disabled_flag_halts_burst 20000 5000 100 21 0 0 (fun _ => false)
    (fun _ => true) rfl

/-! ## The fighter's burst-session map

From `src/services/reservationFighter/index.js` lines 72-104 and 180-182:
`activeBursts` is a `Map` keyed by target id; a tick first checks the enabled
flag, then skips if a session for the id is already active, otherwise records
a session; the `finally` clause always deletes the entry when the burst ends
(success, exhaustion or error). -/

/-- The fighter state a tick observes: the service-wide switch and the ids
with an in-flight burst session. -/
structure FighterState where
  enabled : Bool
  activeBursts : List String
  deriving Repr, DecidableEq

/-- The entry checks of `runBurst` (lines 73-104): returns the state and
whether a new burst session was opened. -/
def burstEnter (st : FighterState) (id : String) : FighterState × Bool :=
  if !st.enabled then (st, false)
  else if st.activeBursts.contains id then (st, false)
  else ({ st with activeBursts := id :: st.activeBursts }, true)

/-- The `finally { this.activeBursts.delete(id) }` of `runBurst`
(lines 180-182). -/
def burstExit (st : FighterState) (id : String) : FighterState :=
  { st with activeBursts := st.activeBursts.filter fun i => i ≠ id }

/-- C7: a tick for a target with an in-flight session is a no-op (no new
session, state unchanged); finishing a burst always removes the session
entry; and both operations preserve "at most one session per id". -/
theorem at_most_one_burst_session :
    (∀ (st : FighterState) (id : String),
        st.activeBursts.contains id = true → burstEnter st id = (st, false))
    ∧ (∀ (st : FighterState) (id : String),
        (burstExit st id).activeBursts.contains id = false)
    ∧ (∀ (st : FighterState) (id : String), st.activeBursts.Nodup →
        (burstEnter st id).1.activeBursts.Nodup
          ∧ (burstExit st id).activeBursts.Nodup) := by
  refine ⟨fun st id h => ?_, fun st id => ?_, fun st id h => ⟨?_, ?_⟩⟩
  · have hmem : id ∈ st.activeBursts := by simpa using h
    unfold burstEnter
    cases he : st.enabled <;> simp [he, hmem]
  · simp [burstExit]
  · unfold burstEnter
    cases he : st.enabled
    · simpa using h
    · by_cases hc : id ∈ st.activeBursts <;>
        simp [he, hc, List.nodup_cons, h]
  · exact h.filter _

/-! ## The polling executor: `checkAndReserve`

Embedded from `src/services/waitlistScheduler/index.js` lines 72-157.  The
gateway is an oracle: `schedResult` is the outcome of
`getMemberExpandedScheduler` (`Except.error` = the call threw) and
`reserve c` tells whether `makeReservation` on court `c` succeeds.  Events
are what the tick `emit`s. -/

/-- The notifications a `checkAndReserve` tick can emit. -/
inductive WEvent where
  | reservationSuccess (courtId : Nat)
  | reservationError
  deriving Repr, DecidableEq

/-- The sequential per-court attempt loop (lines 106-140): returns the courts
whose booking succeeded and the `failedCourts` list, in attempt order.  Every
failed attempt is caught; none escapes. -/
def attemptCourts (reserve : Nat → Bool) : List Nat → List Nat × List Nat
  | [] => ([], [])
  | c :: rest =>
      let (succeeded, failed) := attemptCourts reserve rest
      if reserve c then (c :: succeeded, failed) else (succeeded, c :: failed)

/-- One `checkAndReserve` tick: the guards (enabled, requestData), the
scheduler fetch (a throw is caught by the outer handler, which emits
`reservationError`), the conflict evaluation, the attempt loop, and the
removal of the target when at least one booking succeeded.  Returns the
emitted events, whether the target was removed, and `failedCourts`. -/
def checkAndReserve (enabled hasRequestData : Bool)
    (schedResult : Except Unit (Option (List SchedItem)))
    (reserve : Nat → Bool) (courtIdStart courtIdEnd : Nat)
    (desiredStart : Option Int) (duration : Int) :
    List WEvent × Bool × List Nat :=
  if !enabled then ([], false, [])
  else if !hasRequestData then ([], false, [])
  else
    match schedResult with
    | .error _ => ([WEvent.reservationError], false, [])
    | .ok schedulerData =>
        let desiredEnd := desiredStart.map fun s => s + duration * 60000
        let available := findAvailableCourts schedulerData courtIdStart
          courtIdEnd desiredStart desiredEnd
        let (succeeded, failed) := attemptCourts reserve available
        (succeeded.map WEvent.reservationSuccess, !succeeded.isEmpty, failed)

/-- When every booking attempt fails, the loop reports no success and lists
every attempted court as failed. -/
theorem attemptCourts_all_fail (reserve : Nat → Bool)
    (hfail : ∀ c, reserve c = false) :
    ∀ l : List Nat, attemptCourts reserve l = ([], l) := by
  intro l
  induction l with
  | nil => rfl
  | cons c rest ih => simp [attemptCourts, ih, hfail c]

/-- C8 counterexample: a tick that finds two free courts and fails to book
both emits *no* event at all — in particular no error/failure notification
summarizing the two failures (which are only collected in `failedCourts`). -/
theorem no_failure_summary_emitted_cex :
    (checkAndReserve true true (.ok (some [])) (fun _ => false) 1 2
        (some 1764612000000) 60).1 = []
    ∧ (checkAndReserve true true (.ok (some [])) (fun _ => false) 1 2
        (some 1764612000000) 60).2.2 = [1, 2] := ⟨rfl, rfl⟩

/-- C8 (amended): per-resource booking failures are caught and collected
(never escaping the tick), but when none succeed the tick emits nothing —
`reservationError` is emitted only when the tick-level scheduler fetch
throws. -/
theorem failures_collected_not_emitted :
    (∀ (schedulerData : Option (List SchedItem)) (reserve : Nat → Bool)
        (cs ce : Nat) (ds : Option Int) (dur : Int),
        (∀ c, reserve c = false) →
          checkAndReserve true true (.ok schedulerData) reserve cs ce ds dur
            = ([], false,
                findAvailableCourts schedulerData cs ce ds
                  (ds.map fun s => s + dur * 60000)))
    ∧ (∀ (reserve : Nat → Bool) (cs ce : Nat) (ds : Option Int) (dur : Int),
        checkAndReserve true true (.error ()) reserve cs ce ds dur
          = ([WEvent.reservationError], false, [])) := by
  refine ⟨fun schedulerData reserve cs ce ds dur hfail => ?_,
    fun reserve cs ce ds dur => rfl⟩
  simp [checkAndReserve, attemptCourts_all_fail reserve hfail]

end CourtReserve
